import Mathlib

/-!
Verification of the observability glue code of the repository: the HTTP
metrics middleware, the metrics instrument registry (initMetrics, getMeter,
getHttpInstruments), the structured logger mixin and HTTP request logger
level policy, the server bootstrap sequence, and the process signal
handlers. The definitions below are shallow embeddings of the JavaScript
source; machine behavior of the Node runtime that the source relies on
(response lifecycle events, signal handler dispatch order) is modelled
explicitly and documented at each definition.
-/

namespace Observer

/-- An HTTP request as the Express middleware sees it: the method, the raw
path portion of the url (req.path), the raw url (req.url), and the route
pattern the framework may resolve later during routing (req.route), absent
until a route matches. -/
structure Request where
  method : String
  path : String
  url : String
  routePattern : Option String
deriving DecidableEq, Repr

/-- Route label computed by the metrics middleware, from the source
expression req.path with fallback to req.url under JavaScript falsiness,
where the empty string is falsy. -/
def routeLabel (r : Request) : String :=
  if r.path = "" then r.url else r.path

/-- Kind of an OpenTelemetry metric instrument created by the metrics
module. -/
inductive InstrumentKind
  | counter
  | histogram
  | upDownCounter
deriving DecidableEq, Repr

/-- A metric instrument. The callId field is bookkeeping of the embedding:
it tags the instrument with the initMetrics invocation that created it, so
that instruments from distinct initializations are distinct values. -/
structure Instrument where
  kind : InstrumentKind
  name : String
  unit : Option String
  callId : Nat
deriving DecidableEq, Repr

/-- A meter obtained from a meter provider, tagged with the service name
and the creating initMetrics invocation. -/
structure Meter where
  serviceName : String
  callId : Nat
deriving DecidableEq, Repr

/-- A meter provider, tagged with the service name of its resource and the
creating initMetrics invocation. -/
structure MeterProvider where
  serviceName : String
  callId : Nat
deriving DecidableEq, Repr

/-- The module-level mutable variables of the metrics module, all null
before the first initMetrics call: meterProvider, meter,
httpRequestCounter, httpRequestDuration, activeRequests. The nextCallId
field is bookkeeping of the embedding numbering initMetrics invocations. -/
structure MetricsModuleState where
  meterProvider : Option MeterProvider
  meter : Option Meter
  httpRequestCounter : Option Instrument
  httpRequestDuration : Option Instrument
  activeRequests : Option Instrument
  nextCallId : Nat
deriving DecidableEq, Repr

/-- The metrics module state right after the module is loaded: every
instrument variable is null. -/
def metricsModuleInit : MetricsModuleState :=
  { meterProvider := none, meter := none, httpRequestCounter := none,
    httpRequestDuration := none, activeRequests := none, nextCallId := 0 }

/-- Configuration object accepted by initMetrics; absent fields take the
source defaults. -/
structure MetricsConfig where
  port : Option Nat
  endpoint : Option String
  serviceName : Option String
deriving DecidableEq, Repr

/-- One creation action performed by initMetrics, in the order the source
performs them. -/
inductive InitAction
  | createPrometheusExporter (port : Nat) (endpoint : String)
  | createMeterProvider (serviceName : String)
  | addMetricReader
  | setGlobalMeterProvider
  | getMeterOfProvider (serviceName : String)
  | createCounter (name : String)
  | createHistogram (name : String) (unit : String)
  | createUpDownCounter (name : String)
  | createMetricsMiddleware
deriving DecidableEq, Repr

/-- The objects a single initMetrics call creates and returns, plus the
ordered list of creation actions it performed. -/
structure InitResult where
  meterProvider : MeterProvider
  meter : Meter
  httpRequestCounter : Instrument
  httpRequestDuration : Instrument
  activeRequests : Instrument
  actions : List InitAction
deriving DecidableEq, Repr

/-- Translation of initMetrics from the metrics module: apply the config
defaults (port 9464, endpoint /metrics, serviceName from the config, else
the SERVICE_NAME environment variable modelled by envServiceName, else
api-monitoring-service), then create, in source order, the Prometheus
exporter bound to port and endpoint, the meter provider tagged with the
service name, register the exporter as metric reader, set the global meter
provider, obtain the meter, and create the three HTTP instruments,
overwriting the module-level variables with the created objects. -/
def initMetrics (envServiceName : Option String) (cfg : MetricsConfig)
    (s : MetricsModuleState) : MetricsModuleState × InitResult :=
  let port := cfg.port.getD 9464
  let endpoint := cfg.endpoint.getD "/metrics"
  let serviceName := cfg.serviceName.getD (envServiceName.getD "api-monitoring-service")
  let id := s.nextCallId
  let mp : MeterProvider := ⟨serviceName, id⟩
  let m : Meter := ⟨serviceName, id⟩
  let counter : Instrument := ⟨.counter, "http_requests_total", none, id⟩
  let duration : Instrument := ⟨.histogram, "http_request_duration_ms", some "ms", id⟩
  let active : Instrument := ⟨.upDownCounter, "http_active_requests", none, id⟩
  ({ meterProvider := some mp, meter := some m, httpRequestCounter := some counter,
     httpRequestDuration := some duration, activeRequests := some active,
     nextCallId := id + 1 },
   { meterProvider := mp, meter := m, httpRequestCounter := counter,
     httpRequestDuration := duration, activeRequests := active,
     actions := [.createPrometheusExporter port endpoint,
                 .createMeterProvider serviceName,
                 .addMetricReader,
                 .setGlobalMeterProvider,
                 .getMeterOfProvider serviceName,
                 .createCounter "http_requests_total",
                 .createHistogram "http_request_duration_ms" "ms",
                 .createUpDownCounter "http_active_requests",
                 .createMetricsMiddleware] })

/-- Translation of getMeter: throw the uninitialized error when the module
level meter is null, return it otherwise. -/
def getMeter (s : MetricsModuleState) : Except String Meter :=
  match s.meter with
  | none => .error "Metrics not initialized. Call initMetrics() first."
  | some m => .ok m

/-- Translation of getHttpInstruments: throw the uninitialized error when
any of the three module-level instruments is null, return the triple
(httpRequestCounter, httpRequestDuration, activeRequests) otherwise. -/
def getHttpInstruments (s : MetricsModuleState) :
    Except String (Instrument × Instrument × Instrument) :=
  match s.httpRequestCounter, s.httpRequestDuration, s.activeRequests with
  | some c, some d, some a => .ok (c, d, a)
  | _, _, _ => .error "Metrics not initialized. Call initMetrics() first."

/-- One measurement recorded on a metric instrument by the middleware. -/
inductive MwEvent
  | gaugeAdd (inst : Instrument) (delta : Int) (method route : String)
  | counterAdd (inst : Instrument) (amount : Nat) (method route : String) (status : Nat)
  | histRecord (inst : Instrument) (value : Nat) (method route : String) (status : Nat)
deriving DecidableEq, Repr

/-- Measurements of the middleware body at request arrival: increment the
active-request gauge by 1 for the method and route label partition. -/
def arriveEvents (active : Instrument) (r : Request) : List MwEvent :=
  [.gaugeAdd active 1 r.method (routeLabel r)]

/-- Measurements of the handler the middleware registers on the response
finish event: decrement the gauge for the same partition, add 1 to the
request counter labeled with method, route and status, and record the
elapsed duration into the histogram with the same labels. -/
def finishEvents (active counter duration : Instrument) (r : Request)
    (status elapsed : Nat) : List MwEvent :=
  [.gaugeAdd active (-1) r.method (routeLabel r),
   .counterAdd counter 1 r.method (routeLabel r) status,
   .histRecord duration elapsed r.method (routeLabel r) status]

/-- How a single request lifecycle ends at the transport: either the
response finish event fires (the response was fully sent, with a status
code, at an end time), or the connection is aborted before the response
finishes. In the Node response lifecycle an aborted connection emits the
close event but never the finish event, so a handler registered only for
finish does not run for an aborted request. -/
inductive Outcome
  | finished (status : Nat) (endTime : Nat)
  | aborted
deriving DecidableEq, Repr

/-- All measurements one middleware invocation records for one request,
given the instruments it resolved, the start time it captured, and the
lifecycle outcome: the arrival increment always happens; the completion
measurements happen exactly when the finish event fires, with duration
computed as end time minus start time. -/
def requestEvents (active counter duration : Instrument) (r : Request)
    (startTime : Nat) (o : Outcome) : List MwEvent :=
  arriveEvents active r ++
    match o with
    | .finished status endTime =>
      finishEvents active counter duration r status (endTime - startTime)
    | .aborted => []

/-- Behavior of the closure returned by createHttpMetricsMiddleware for one
request. The closure reads the module-level instrument variables at request
time, not at creation time, so it is given the metrics module state current
when the request arrives. With the instruments still null (no initMetrics
call yet) the very first statement of the closure dereferences null and the
request throws; the source sets the three instrument variables together, so
they are either all null or all set. -/
def middlewareHandle (s : MetricsModuleState) (r : Request) (startTime : Nat)
    (o : Outcome) : Except String (List MwEvent) :=
  match s.activeRequests, s.httpRequestCounter, s.httpRequestDuration with
  | some active, some counter, some duration =>
    .ok (requestEvents active counter duration r startTime o)
  | _, _, _ => .error "TypeError: Cannot read properties of null"

/-- True exactly on a gauge decrement measurement. -/
def isGaugeDec : MwEvent → Bool
  | .gaugeAdd _ delta _ _ => decide (delta < 0)
  | _ => false

/-- True exactly on a request counter measurement. -/
def isCounterInc : MwEvent → Bool
  | .counterAdd _ _ _ _ _ => true
  | _ => false

/-- True exactly on a histogram measurement. -/
def isHistRecord : MwEvent → Bool
  | .histRecord _ _ _ _ _ => true
  | _ => false

/-- Number of gauge decrements in a measurement list. -/
def decCount (evs : List MwEvent) : Nat := (evs.filter isGaugeDec).length

/-- Number of request counter increments in a measurement list. -/
def cntCount (evs : List MwEvent) : Nat := (evs.filter isCounterInc).length

/-- Number of histogram recordings in a measurement list. -/
def histCount (evs : List MwEvent) : Nat := (evs.filter isHistRecord).length

/-- Signed contribution of one measurement to the active-request gauge of
the partition given by method and route. -/
def gaugeDelta (method route : String) : MwEvent → Int
  | .gaugeAdd _ delta m rt => if m = method ∧ rt = route then delta else 0
  | _ => 0

/-- Value of the active-request gauge for a partition after a list of
measurements, starting from zero. -/
def gaugeValue (evs : List MwEvent) (method route : String) : Int :=
  (evs.map (gaugeDelta method route)).sum

/-- True when a request belongs to the partition given by method and route
label. -/
def reqMatch (method route : String) (q : Request) : Bool :=
  decide (q.method = method ∧ routeLabel q = route)

/-- Number of entries of a lifecycle table whose request belongs to the
given partition. -/
def labelCount (l : List (Nat × Request)) (method route : String) : Nat :=
  l.countP (fun p => reqMatch method route p.2)

/-- One atomic event of the serving process at the granularity the metrics
middleware observes: a request arrives (the middleware body runs and the
finish handler is registered), the response finish event of a lifecycle
fires, or the connection of a lifecycle aborts before the response
finishes. Lifecycles are identified by an id; in Node the finish event of
one response fires at most once, and never after the connection aborted. -/
inductive Step
  | arrive (id : Nat) (r : Request)
  | finish (id : Nat) (status : Nat) (elapsed : Nat)
  | abort (id : Nat)
deriving DecidableEq, Repr

/-- State of the serving process as the middleware shapes it: the pending
lifecycles (arrived, finish handler registered, not yet finished or
aborted), the lifecycles that aborted before their response finished, and
the measurements recorded so far. -/
structure ExecState where
  pending : List (Nat × Request)
  abortedReqs : List (Nat × Request)
  events : List MwEvent
deriving DecidableEq, Repr

/-- The serving process before any request. -/
def ExecState.init : ExecState := ⟨[], [], []⟩

/-- Remove the first lifecycle with the given id from a table, returning
its request when present. -/
def takeById (id : Nat) : List (Nat × Request) → Option Request × List (Nat × Request)
  | [] => (none, [])
  | p :: rest =>
    if p.1 = id then (some p.2, rest)
    else ((takeById id rest).1, p :: (takeById id rest).2)

/-- Step the serving process. On arrival the middleware increments the
gauge and the lifecycle becomes pending. When the finish event of a
pending lifecycle fires, the handler the middleware registered for the
finish event emits the three completion measurements. When a pending
lifecycle aborts, no handler was registered for that path, so no
measurement is emitted. -/
def execStep (active counter duration : Instrument) (s : ExecState) :
    Step → ExecState
  | .arrive id r =>
    { pending := s.pending ++ [(id, r)]
      abortedReqs := s.abortedReqs
      events := s.events ++ arriveEvents active r }
  | .finish id status elapsed =>
    match takeById id s.pending with
    | (some r, rest) =>
      { pending := rest
        abortedReqs := s.abortedReqs
        events := s.events ++ finishEvents active counter duration r status elapsed }
    | (none, _) => s
  | .abort id =>
    match takeById id s.pending with
    | (some r, rest) =>
      { pending := rest
        abortedReqs := s.abortedReqs ++ [(id, r)]
        events := s.events }
    | (none, _) => s

/-- Run the serving process over a list of atomic events from the initial
state. -/
def exec (active counter duration : Instrument) (t : List Step) : ExecState :=
  t.foldl (execStep active counter duration) ExecState.init

/-- Number of lifecycles of a partition currently between arrival and
completion (completion by any exit path, finish or abort). -/
def inFlight (s : ExecState) (method route : String) : Nat :=
  labelCount s.pending method route

/-- Number of lifecycles of a partition that aborted before their response
finished. -/
def abortedCount (s : ExecState) (method route : String) : Nat :=
  labelCount s.abortedReqs method route

/-- Hex digits of a positive number, most significant first, with enough
fuel; mirrors the recursion of Number toString with radix 16. -/
def hexDigitsAux : Nat → Nat → List Char
  | 0, _ => []
  | _ + 1, 0 => []
  | fuel + 1, n + 1 =>
    hexDigitsAux fuel ((n + 1) / 16) ++ [Nat.digitChar ((n + 1) % 16)]

/-- The JavaScript rendering of a natural number in base 16 (lowercase, no
leading zeros, and the single digit 0 for zero). -/
def jsHex (n : Nat) : String :=
  if n = 0 then "0" else String.mk (hexDigitsAux n n)

/-- A string of k zero characters. -/
def zeros (k : Nat) : String := String.mk (List.replicate k '0')

/-- The span context of an active tracing span: trace id, span id and the
trace flags byte. -/
structure SpanContext where
  traceId : String
  spanId : String
  traceFlags : Nat
deriving DecidableEq, Repr

/-- Translation of the logger mixin: it reads the active span at the
moment it is called. With a span present it returns the three trace
correlation fields, rendering trace_flags as the character 0 followed by
the hex encoding of the flags; with no span it returns an empty object, so
nothing extra is attached. -/
def mixin (active : Option SpanContext) : List (String × String) :=
  match active with
  | some sc =>
    [("trace_id", sc.traceId), ("span_id", sc.spanId),
     ("trace_flags", "0" ++ jsHex sc.traceFlags)]
  | none => []

/-- A log record as the logger emits it: the base fields of the logging
call merged with the mixin fields computed from the span active at the
moment of emission. Because the mixin runs on every call, the record
depends on the span active at emission time, not at logger construction
time. -/
def emitRecord (active : Option SpanContext) (base : List (String × String)) :
    List (String × String) :=
  base ++ mixin active

/-- Value of a field of a log record, absent when no entry has the key. -/
def getField (rec : List (String × String)) (k : String) : Option String :=
  (rec.find? (fun p => p.1 == k)).map Prod.snd

/-- Whether a log record carries a field with the given key. -/
def hasField (rec : List (String × String)) (k : String) : Bool :=
  rec.any (fun p => p.1 == k)

/-- Log levels the HTTP request logger selects from. -/
inductive LogLevel
  | warn
  | error
  | info
deriving DecidableEq, Repr

/-- Translation of customLogLevel from the logging module: statuses in
[400, 500) give warn; otherwise statuses at least 500, or a passed error,
give error; everything else gives info. -/
def customLogLevel (statusCode : Nat) (err : Bool) : LogLevel :=
  if 400 ≤ statusCode ∧ statusCode < 500 then .warn
  else if 500 ≤ statusCode ∨ err = true then .error
  else .info

/-- The two termination signals the repository installs handlers for. -/
inductive Sig
  | sigterm
  | sigint
deriving DecidableEq, Repr

/-- One step of the bootstrap sequence of server.js. Requiring the tracing
module runs its top level: it creates the trace exporter and the node SDK,
starts the SDK (auto-instrumenting the HTTP stack) and registers the
tracing SIGTERM handler; this happens on the first require line, before
anything else. -/
inductive BootStep
  | requireTracingModule
  | initTracingCall
  | initMetricsCall
  | constructExpressApp
  | useJsonBodyMiddleware
  | useUrlencodedMiddleware
  | useMetricsMiddleware
  | initLoggingCall
  | useHttpLoggerMiddleware
  | registerRoute (method path : String)
  | appListen
  | registerSignalHandler (sig : Sig)
deriving DecidableEq, Repr

/-- The bootstrap sequence of server.js, in source order: require the
tracing module (its top level runs), call initTracing, call initMetrics,
construct the Express app, register the json and urlencoded body parsers
and the metrics middleware, register the four routes, listen, and install
the SIGTERM and SIGINT handlers. The logging module is never required,
initLogging is never called, and the HTTP log middleware is never
registered. -/
def serverBootstrap : List BootStep :=
  [.requireTracingModule, .initTracingCall, .initMetricsCall,
   .constructExpressApp, .useJsonBodyMiddleware, .useUrlencodedMiddleware,
   .useMetricsMiddleware,
   .registerRoute "GET" "/", .registerRoute "GET" "/api/health",
   .registerRoute "GET" "/api/slow", .registerRoute "GET" "/api/error",
   .appListen,
   .registerSignalHandler .sigterm, .registerSignalHandler .sigint]

/-- A synchronous effect a signal handler performs. Continuations chained
on a promise (such as the then and finally callbacks of the sdk shutdown in
the tracing module) are asynchronous: they cannot run during the
synchronous dispatch of the signal handlers, so they are not synchronous
effects; a process exit during dispatch means they never run at all. -/
inductive SyncEffect
  | consoleLog (msg : String)
  | beginSdkShutdown
  | exitProcess (code : Nat)
deriving DecidableEq, Repr

/-- Synchronous body of the SIGTERM handler the tracing module registers:
it initiates the asynchronous sdk shutdown and returns; its logging and
exit happen only in promise continuations. -/
def tracingSigtermHandler : List SyncEffect := [.beginSdkShutdown]

/-- Synchronous body of the SIGTERM handler server.js registers: log the
shutdown message, then exit the process with code 0. -/
def serverSigtermHandler : List SyncEffect :=
  [.consoleLog "SIGTERM signal received: closing HTTP server", .exitProcess 0]

/-- Synchronous body of the SIGINT handler server.js registers: log the
shutdown message, then exit the process with code 0. -/
def serverSigintHandler : List SyncEffect :=
  [.consoleLog "SIGINT signal received: closing HTTP server", .exitProcess 0]

/-- All handler bodies registered for a signal, concatenated in
registration order: the tracing module handler is registered when the
module is required, before server.js registers its own, so it runs first
on SIGTERM; only server.js handles SIGINT. -/
def handlersFor : Sig → List SyncEffect
  | .sigterm => tracingSigtermHandler ++ serverSigtermHandler
  | .sigint => serverSigintHandler

/-- Execute synchronous effects in order; a process exit terminates the
dispatch immediately, so nothing after it executes, including every
pending asynchronous continuation. Returns the effects that actually
executed and the exit code, if any. -/
def runUntilExit : List SyncEffect → List SyncEffect × Option Nat
  | [] => ([], none)
  | .exitProcess c :: _ => ([.exitProcess c], some c)
  | e :: rest => (e :: (runUntilExit rest).1, (runUntilExit rest).2)

/-- Deliver a signal to the process: run the registered handler bodies in
registration order until the first process exit. -/
def dispatchSignal (sig : Sig) : List SyncEffect × Option Nat :=
  runUntilExit (handlersFor sig)

/-- A sample request to the health route. -/
def sampleReq : Request := ⟨"GET", "/api/health", "/api/health", none⟩

/-- A request whose raw path carries a trailing slash while the framework
resolved the route pattern without one, as Express default non-strict
routing does. -/
def trailingSlashReq : Request :=
  ⟨"GET", "/api/health/", "/api/health/", some "/api/health"⟩

/-- The up-down counter as the first initMetrics call creates it. -/
def activeInst : Instrument := ⟨.upDownCounter, "http_active_requests", none, 0⟩

/-- The request counter as the first initMetrics call creates it. -/
def counterInst : Instrument := ⟨.counter, "http_requests_total", none, 0⟩

/-- The duration histogram as the first initMetrics call creates it. -/
def durationInst : Instrument :=
  ⟨.histogram, "http_request_duration_ms", some "ms", 0⟩

/-- A sample span context with flags byte 1 (sampled). -/
def sampleSpan : SpanContext :=
  ⟨"4bf92f3577b34da6a3ce929d0e0e4736", "00f067aa0ba902b7", 1⟩

/-- A sample base log record carrying only a message. -/
def sampleBase : List (String × String) := [("message", "request completed")]

/-- Gauge bookkeeping invariant of the serving process: for every
partition, the recorded gauge value equals the number of pending
lifecycles of the partition plus the number of aborted ones. -/
def GaugeInv (s : ExecState) : Prop :=
  ∀ m rt : String,
    gaugeValue s.events m rt
      = (labelCount s.pending m rt : Int) + (labelCount s.abortedReqs m rt : Int)

theorem gaugeValue_append (e1 e2 : List MwEvent) (m rt : String) :
    gaugeValue (e1 ++ e2) m rt = gaugeValue e1 m rt + gaugeValue e2 m rt := by
  simp [gaugeValue]

theorem gaugeValue_arriveEvents (a : Instrument) (r : Request) (m rt : String) :
    gaugeValue (arriveEvents a r) m rt
      = if r.method = m ∧ routeLabel r = rt then 1 else 0 := by
  simp [arriveEvents, gaugeValue, gaugeDelta]

theorem gaugeValue_finishEvents (a c d : Instrument) (r : Request)
    (status elapsed : Nat) (m rt : String) :
    gaugeValue (finishEvents a c d r status elapsed) m rt
      = if r.method = m ∧ routeLabel r = rt then -1 else 0 := by
  simp [finishEvents, gaugeValue, gaugeDelta]

theorem takeById_eq_none (id : Nat) :
    ∀ l : List (Nat × Request), (takeById id l).1 = none → (takeById id l).2 = l := by
  intro l
  induction l with
  | nil => intro _; rfl
  | cons p rest ih =>
    intro h
    by_cases hp : p.1 = id
    · simp [takeById, hp] at h
    · simp only [takeById, if_neg hp] at h ⊢
      exact congrArg (p :: ·) (ih h)

theorem takeById_countP (id : Nat) (pm : Request → Bool) :
    ∀ (l : List (Nat × Request)) (r : Request),
      (takeById id l).1 = some r →
      l.countP (fun p => pm p.2)
        = (takeById id l).2.countP (fun p => pm p.2) + (if pm r then 1 else 0) := by
  intro l
  induction l with
  | nil => intro r h; simp [takeById] at h
  | cons p rest ih =>
    intro r h
    by_cases hp : p.1 = id
    · have h2 : p.2 = r := by simpa [takeById, hp] using h
      have h3 : (takeById id (p :: rest)).2 = rest := by simp [takeById, hp]
      rw [h3, List.countP_cons, h2]
    · have h1 : (takeById id (p :: rest)).1 = (takeById id rest).1 := by
        simp [takeById, hp]
      have h3 : (takeById id (p :: rest)).2 = p :: (takeById id rest).2 := by
        simp [takeById, hp]
      rw [h1] at h
      rw [h3, List.countP_cons, List.countP_cons, ih r h]
      omega

theorem gaugeInv_init : GaugeInv ExecState.init := by
  intro m rt
  simp [ExecState.init, gaugeValue, labelCount]

theorem gaugeInv_step (a c d : Instrument) (s : ExecState) (st : Step)
    (h : GaugeInv s) : GaugeInv (execStep a c d s st) := by
  cases st with
  | arrive id r =>
    intro m rt
    have hs := h m rt
    simp only [execStep, labelCount, reqMatch, List.countP_append] at *
    rw [gaugeValue_append, gaugeValue_arriveEvents]
    by_cases hm : (r.method = m ∧ routeLabel r = rt)
    · simp only [if_pos hm, List.countP_cons, List.countP_nil, reqMatch]
      simp only [decide_eq_true_eq, if_pos hm]
      push_cast
      omega
    · simp only [if_neg hm, List.countP_cons, List.countP_nil, reqMatch]
      simp only [decide_eq_true_eq, if_neg hm]
      push_cast
      omega
  | finish id status elapsed =>
    intro m rt
    have hs := h m rt
    simp only [execStep]
    split
    next r rest heq =>
      have hc := takeById_countP id (reqMatch m rt) s.pending r (by rw [heq])
      rw [heq] at hc
      simp only [labelCount, reqMatch] at *
      rw [gaugeValue_append, gaugeValue_finishEvents]
      by_cases hm : (r.method = m ∧ routeLabel r = rt)
      · simp only [reqMatch, decide_eq_true_eq, if_pos hm] at hc ⊢
        push_cast at *
        omega
      · simp only [reqMatch, decide_eq_true_eq, if_neg hm] at hc ⊢
        push_cast at *
        omega
    next heq => exact hs
  | abort id =>
    intro m rt
    have hs := h m rt
    simp only [execStep]
    split
    next r rest heq =>
      have hc := takeById_countP id (reqMatch m rt) s.pending r (by rw [heq])
      rw [heq] at hc
      simp only [labelCount, reqMatch, List.countP_append, List.countP_cons,
        List.countP_nil] at *
      by_cases hm : (r.method = m ∧ routeLabel r = rt)
      · simp only [reqMatch, decide_eq_true_eq, if_pos hm] at hc ⊢
        push_cast at *
        omega
      · simp only [reqMatch, decide_eq_true_eq, if_neg hm] at hc ⊢
        push_cast at *
        omega
    next heq => exact hs

theorem gaugeInv_foldl (a c d : Instrument) :
    ∀ (t : List Step) (s : ExecState), GaugeInv s →
      GaugeInv (t.foldl (execStep a c d) s) := by
  intro t
  induction t with
  | nil => intro s hs; exact hs
  | cons st rest ih =>
    intro s hs
    exact ih _ (gaugeInv_step a c d s st hs)

theorem gaugeInv_exec (a c d : Instrument) (t : List Step) :
    GaugeInv (exec a c d t) :=
  gaugeInv_foldl a c d t ExecState.init gaugeInv_init

theorem getField_append_of_absent (l1 l2 : List (String × String)) (k : String)
    (h : hasField l1 k = false) : getField (l1 ++ l2) k = getField l2 k := by
  induction l1 with
  | nil => rfl
  | cons p rest ih =>
    simp only [hasField, List.any_cons, Bool.or_eq_false_iff] at h
    obtain ⟨h1, h2⟩ := h
    simp only [getField, List.cons_append]
    rw [List.find?_cons_of_neg _ (by simp [h1])]
    exact ih h2

theorem jsHex_length_pos (n : Nat) : 1 ≤ (jsHex n).length := by
  cases n with
  | zero => decide
  | succ m =>
    have h1 : jsHex (m + 1) = String.mk (hexDigitsAux (m + 1) (m + 1)) := by
      simp [jsHex]
    rw [h1]
    show 1 ≤ (hexDigitsAux (m + 1) (m + 1)).length
    simp [hexDigitsAux]

theorem string_length_append (s t : String) :
    (s ++ t).length = s.length + t.length := by
  cases s with
  | mk a =>
    cases t with
    | mk b =>
      show (a ++ b).length = a.length + b.length
      exact List.length_append a b

/-- C1 (amended): for every interleaving of arrivals, finishes and aborts
and every partition, the active-request gauge equals the number of
in-flight lifecycles of the partition plus the number of lifecycles that
aborted before their response finished; it never goes negative, it equals
the in-flight count whenever no lifecycle of the partition has aborted,
and it returns to its pre-burst value of zero once every lifecycle of the
partition has completed by its finish event firing. A lifecycle that
aborts leaves the gauge permanently one higher, because the middleware
registers its decrement only on the finish event. -/
theorem c1_gauge_conservation_amended (active counter duration : Instrument)
    (t : List Step) (method route : String) :
    gaugeValue (exec active counter duration t).events method route
        = (inFlight (exec active counter duration t) method route : Int)
          + (abortedCount (exec active counter duration t) method route : Int)
    ∧ 0 ≤ gaugeValue (exec active counter duration t).events method route
    ∧ (abortedCount (exec active counter duration t) method route = 0 →
        gaugeValue (exec active counter duration t).events method route
          = (inFlight (exec active counter duration t) method route : Int))
    ∧ (inFlight (exec active counter duration t) method route = 0 →
        abortedCount (exec active counter duration t) method route = 0 →
        gaugeValue (exec active counter duration t).events method route = 0) := by
  have h : gaugeValue (exec active counter duration t).events method route
      = (inFlight (exec active counter duration t) method route : Int)
        + (abortedCount (exec active counter duration t) method route : Int) :=
    gaugeInv_exec active counter duration t method route
  refine ⟨h, by omega, fun ha => by omega, fun hp ha => by omega⟩

/-- Witness for C1 (amended) at a burst of one request that arrives and
finishes: no lifecycle is in flight or aborted afterwards, and the gauge
is back at its pre-burst value of zero. -/
theorem c1_gauge_conservation_witness :
    inFlight (exec activeInst counterInst durationInst
        [Step.arrive 0 sampleReq, Step.finish 0 200 5]) "GET" "/api/health" = 0
    ∧ abortedCount (exec activeInst counterInst durationInst
        [Step.arrive 0 sampleReq, Step.finish 0 200 5]) "GET" "/api/health" = 0
    ∧ gaugeValue (exec activeInst counterInst durationInst
        [Step.arrive 0 sampleReq, Step.finish 0 200 5]).events "GET" "/api/health" = 0 :=
  ⟨by decide, by decide,
    (c1_gauge_conservation_amended activeInst counterInst durationInst
        [Step.arrive 0 sampleReq, Step.finish 0 200 5] "GET" "/api/health").2.2.2
      (by decide) (by decide)⟩

/-- Counterexample to C1 as stated: a single request that arrives and then
aborts before its response finishes has completed by an exit path the
claim includes, and zero requests of its partition are between arrival and
completion, yet the gauge reads 1, not its pre-burst value 0, because only
the finish event triggers the decrement. -/
theorem c1_abort_leak_counterexample :
    gaugeValue (exec activeInst counterInst durationInst
        [Step.arrive 0 sampleReq, Step.abort 0]).events "GET" "/api/health" = 1
    ∧ inFlight (exec activeInst counterInst durationInst
        [Step.arrive 0 sampleReq, Step.abort 0]) "GET" "/api/health" = 0
    ∧ abortedCount (exec activeInst counterInst durationInst
        [Step.arrive 0 sampleReq, Step.abort 0]) "GET" "/api/health" = 1 := by
  refine ⟨by decide, by decide, by decide⟩

/-- C2 (amended): the completion callback is registered only on the
response finish event. For every request whose response finishes -
including error responses - it fires exactly once, producing exactly one
gauge decrement, one counter increment and one histogram recording; for a
request aborted before its response finishes it never fires, so none of
the three completion measurements occurs. -/
theorem c2_completion_exactly_once_amended (a c d : Instrument) (r : Request)
    (startTime status endTime : Nat) :
    (decCount (requestEvents a c d r startTime (Outcome.finished status endTime)) = 1
      ∧ cntCount (requestEvents a c d r startTime (Outcome.finished status endTime)) = 1
      ∧ histCount (requestEvents a c d r startTime (Outcome.finished status endTime)) = 1)
    ∧ (decCount (requestEvents a c d r startTime Outcome.aborted) = 0
      ∧ cntCount (requestEvents a c d r startTime Outcome.aborted) = 0
      ∧ histCount (requestEvents a c d r startTime Outcome.aborted) = 0) :=
  ⟨⟨rfl, rfl, rfl⟩, rfl, rfl, rfl⟩

/-- Counterexample to C2 as stated: for a request aborted mid-flight, the
completion callback never fires - the counter increment count is 0, not
the exactly-one the claim asserts for every request including aborted
ones, and likewise for the gauge decrement and the histogram recording. -/
theorem c2_abort_counterexample :
    decCount (requestEvents activeInst counterInst durationInst sampleReq 0
        Outcome.aborted) = 0
    ∧ cntCount (requestEvents activeInst counterInst durationInst sampleReq 0
        Outcome.aborted) = 0
    ∧ histCount (requestEvents activeInst counterInst durationInst sampleReq 0
        Outcome.aborted) = 0
    ∧ ¬ cntCount (requestEvents activeInst counterInst durationInst sampleReq 0
        Outcome.aborted) = 1 := by
  refine ⟨rfl, rfl, rfl, by decide⟩

/-- C3 (amended): the route label the middleware uses for all instruments
is always the raw request path, with fallback to the raw url when the path
is empty; the route pattern the framework resolves is never consulted, so
the label is unchanged however the pattern is set. -/
theorem c3_route_label_amended (r : Request) (pat : Option String) :
    routeLabel { r with routePattern := pat } = routeLabel r
    ∧ (¬ r.path = "" → routeLabel r = r.path)
    ∧ (r.path = "" → routeLabel r = r.url) := by
  refine ⟨rfl, fun h => ?_, fun h => ?_⟩
  · simp [routeLabel, h]
  · simp [routeLabel, h]

/-- Witness for C3 (amended): a request with a nonempty raw path gets that
raw path as its route label. -/
theorem c3_route_label_witness :
    ¬ sampleReq.path = "" ∧ routeLabel sampleReq = sampleReq.path :=
  ⟨by decide, (c3_route_label_amended sampleReq none).2.1 (by decide)⟩

/-- Counterexample to C3 as stated: a request whose resolved route pattern
is /api/health but whose raw path carries a trailing slash is labeled with
the raw path, not with the matched route pattern the claim requires when
one has been resolved. -/
theorem c3_pattern_counterexample :
    trailingSlashReq.routePattern = some "/api/health"
    ∧ ¬ routeLabel trailingSlashReq = "/api/health" := by
  refine ⟨rfl, by decide⟩

/-- C4: the bootstrap of server.js runs the tracing module and initTracing
before the Express app is constructed, initMetrics next, and registers the
metrics middleware before the first route; but it never initializes
logging and never registers the HTTP log middleware, contradicting the
claimed triad ordering and the claim that both middlewares are registered
before routes. -/
theorem c4_bootstrap_missing_logging :
    serverBootstrap.take 4 = [BootStep.requireTracingModule, BootStep.initTracingCall,
        BootStep.initMetricsCall, BootStep.constructExpressApp]
    ∧ BootStep.useMetricsMiddleware ∈ serverBootstrap
    ∧ serverBootstrap.indexOf BootStep.useMetricsMiddleware
        < serverBootstrap.indexOf (BootStep.registerRoute "GET" "/")
    ∧ BootStep.initLoggingCall ∉ serverBootstrap
    ∧ BootStep.useHttpLoggerMiddleware ∉ serverBootstrap := by
  refine ⟨rfl, by decide, by decide, by decide, by decide⟩

/-- C5: a log record emitted while a span is active carries trace_id equal
to that span's trace id, span_id equal to its span id, and trace_flags
rendered as hex and zero-padded to at least two characters; a record
emitted with no active span equals the base record, so it carries none of
the three fields. The mixin is applied to the span active at each
emission, so the fields follow the emission-time span. -/
theorem c5_mixin_trace_fields (sc : SpanContext) (base : List (String × String)) :
    (hasField base "trace_id" = false →
      getField (emitRecord (some sc) base) "trace_id" = some sc.traceId)
    ∧ (hasField base "span_id" = false →
      getField (emitRecord (some sc) base) "span_id" = some sc.spanId)
    ∧ (hasField base "trace_flags" = false →
      ∃ v, getField (emitRecord (some sc) base) "trace_flags" = some v
        ∧ 2 ≤ v.length ∧ ∃ k, v = zeros k ++ jsHex sc.traceFlags)
    ∧ emitRecord none base = base := by
  refine ⟨fun h => ?_, fun h => ?_, fun h => ?_, by simp [emitRecord, mixin]⟩
  · rw [emitRecord, getField_append_of_absent _ _ _ h]
    rfl
  · rw [emitRecord, getField_append_of_absent _ _ _ h]
    rfl
  · rw [emitRecord, getField_append_of_absent _ _ _ h]
    refine ⟨"0" ++ jsHex sc.traceFlags, rfl, ?_, 1, ?_⟩
    · rw [string_length_append]
      have h0 : "0".length = 1 := rfl
      have h1 := jsHex_length_pos sc.traceFlags
      omega
    · rfl

/-- Witness for C5 at a sample span and a base record that carries only a
message: the emitted record carries the span's trace id, and with no
active span the record is exactly the base record. -/
theorem c5_mixin_trace_fields_witness :
    hasField sampleBase "trace_id" = false
    ∧ getField (emitRecord (some sampleSpan) sampleBase) "trace_id"
        = some sampleSpan.traceId
    ∧ emitRecord none sampleBase = sampleBase :=
  ⟨by decide, (c5_mixin_trace_fields sampleSpan sampleBase).1 (by decide),
    (c5_mixin_trace_fields sampleSpan sampleBase).2.2.2⟩

/-- C6: the request logger selects warn for statuses in [400, 500);
otherwise error when the status is at least 500 or the handler passed an
error; otherwise info. -/
theorem c6_log_level_policy (statusCode : Nat) (err : Bool) :
    ((400 ≤ statusCode ∧ statusCode < 500) →
      customLogLevel statusCode err = LogLevel.warn)
    ∧ (¬ (400 ≤ statusCode ∧ statusCode < 500) →
        (500 ≤ statusCode ∨ err = true) →
        customLogLevel statusCode err = LogLevel.error)
    ∧ (¬ (400 ≤ statusCode ∧ statusCode < 500) →
        ¬ (500 ≤ statusCode ∨ err = true) →
        customLogLevel statusCode err = LogLevel.info) := by
  refine ⟨fun h => ?_, fun h1 h2 => ?_, fun h1 h2 => ?_⟩
  · rw [customLogLevel, if_pos h]
  · rw [customLogLevel, if_neg h1, if_pos h2]
  · rw [customLogLevel, if_neg h1, if_neg h2]

/-- Witness for C6 at a plain 200 response with no error: level info. -/
theorem c6_log_level_policy_witness :
    ¬ (400 ≤ 200 ∧ 200 < 500) ∧ ¬ (500 ≤ 200 ∨ false = true)
    ∧ customLogLevel 200 false = LogLevel.info :=
  ⟨by decide, by decide, (c6_log_level_policy 200 false).2.2 (by decide) (by decide)⟩

/-- C7: before any initMetrics call both accessors fail with the
uninitialized error; after any initMetrics call, getMeter returns the
meter and getHttpInstruments the three instruments that this very call
created. -/
theorem c7_registry_uninitialized :
    getMeter metricsModuleInit
        = Except.error "Metrics not initialized. Call initMetrics() first."
    ∧ getHttpInstruments metricsModuleInit
        = Except.error "Metrics not initialized. Call initMetrics() first."
    ∧ ∀ (env : Option String) (cfg : MetricsConfig) (s : MetricsModuleState),
        getMeter (initMetrics env cfg s).1 = Except.ok (initMetrics env cfg s).2.meter
        ∧ getHttpInstruments (initMetrics env cfg s).1
            = Except.ok ((initMetrics env cfg s).2.httpRequestCounter,
                (initMetrics env cfg s).2.httpRequestDuration,
                (initMetrics env cfg s).2.activeRequests) :=
  ⟨rfl, rfl, fun env cfg s => ⟨rfl, rfl⟩⟩

/-- C8: initMetrics performs, in order, the creation of the Prometheus
exposition exporter bound to the configured port and endpoint, of the
meter provider tagged with the service name, the reader registration, the
global provider installation, the meter lookup, and the creation of the
counter http_requests_total, the histogram http_request_duration_ms with
unit ms, and the up-down counter http_active_requests; it stores exactly
the created instruments in the module state, so the middleware it returns
records, on the next request, into the instruments created by that call. -/
theorem c8_init_metrics_creation_order (env : Option String)
    (cfg : MetricsConfig) (s : MetricsModuleState) :
    (initMetrics env cfg s).2.actions =
      [InitAction.createPrometheusExporter (cfg.port.getD 9464)
          (cfg.endpoint.getD "/metrics"),
       InitAction.createMeterProvider
          (cfg.serviceName.getD (env.getD "api-monitoring-service")),
       InitAction.addMetricReader,
       InitAction.setGlobalMeterProvider,
       InitAction.getMeterOfProvider
          (cfg.serviceName.getD (env.getD "api-monitoring-service")),
       InitAction.createCounter "http_requests_total",
       InitAction.createHistogram "http_request_duration_ms" "ms",
       InitAction.createUpDownCounter "http_active_requests",
       InitAction.createMetricsMiddleware]
    ∧ (initMetrics env cfg s).2.httpRequestCounter.kind = InstrumentKind.counter
    ∧ (initMetrics env cfg s).2.httpRequestCounter.name = "http_requests_total"
    ∧ (initMetrics env cfg s).2.httpRequestDuration.kind = InstrumentKind.histogram
    ∧ (initMetrics env cfg s).2.httpRequestDuration.name = "http_request_duration_ms"
    ∧ (initMetrics env cfg s).2.httpRequestDuration.unit = some "ms"
    ∧ (initMetrics env cfg s).2.activeRequests.kind = InstrumentKind.upDownCounter
    ∧ (initMetrics env cfg s).2.activeRequests.name = "http_active_requests"
    ∧ (initMetrics env cfg s).1.httpRequestCounter
        = some (initMetrics env cfg s).2.httpRequestCounter
    ∧ (initMetrics env cfg s).1.httpRequestDuration
        = some (initMetrics env cfg s).2.httpRequestDuration
    ∧ (initMetrics env cfg s).1.activeRequests
        = some (initMetrics env cfg s).2.activeRequests
    ∧ ∀ (r : Request) (startTime status endTime : Nat),
        middlewareHandle (initMetrics env cfg s).1 r startTime
            (Outcome.finished status endTime)
          = Except.ok (requestEvents (initMetrics env cfg s).2.activeRequests
              (initMetrics env cfg s).2.httpRequestCounter
              (initMetrics env cfg s).2.httpRequestDuration
              r startTime (Outcome.finished status endTime)) :=
  ⟨rfl, rfl, rfl, rfl, rfl, rfl, rfl, rfl, rfl, rfl, rfl,
    fun r startTime status endTime => rfl⟩

/-- C9: delivering either termination signal runs the registered handlers
in registration order: on SIGTERM the tracing handler initiates the
asynchronous sdk shutdown and returns, then the server handler logs the
shutdown message and exits the process with code 0 at once, so neither the
shutdown completion nor any draining ever executes; on SIGINT the server
handler logs and exits with code 0 directly. Both signals yield exit code
0. -/
theorem c9_signal_shutdown :
    dispatchSignal Sig.sigterm
      = ([SyncEffect.beginSdkShutdown,
          SyncEffect.consoleLog "SIGTERM signal received: closing HTTP server",
          SyncEffect.exitProcess 0], some 0)
    ∧ dispatchSignal Sig.sigint
      = ([SyncEffect.consoleLog "SIGINT signal received: closing HTTP server",
          SyncEffect.exitProcess 0], some 0)
    ∧ ∀ sig : Sig, (dispatchSignal sig).2 = some 0 := by
  refine ⟨rfl, rfl, fun sig => ?_⟩
  cases sig <;> rfl

/-- C10: the middleware resolves instruments from the module state at
request time. With the pristine module state (no initMetrics call yet) it
throws on every request it handles; after two initMetrics calls, a
middleware - whichever call returned it - records into the instruments the
most recent call installed, which differ from those of the first call. -/
theorem c10_middleware_late_binding :
    (∀ (r : Request) (startTime : Nat) (o : Outcome),
        middlewareHandle metricsModuleInit r startTime o
          = Except.error "TypeError: Cannot read properties of null")
    ∧ (∀ (env1 env2 : Option String) (cfg1 cfg2 : MetricsConfig)
          (r : Request) (startTime status endTime : Nat),
        middlewareHandle
            (initMetrics env2 cfg2 (initMetrics env1 cfg1 metricsModuleInit).1).1
            r startTime (Outcome.finished status endTime)
          = Except.ok (requestEvents
              (initMetrics env2 cfg2
                (initMetrics env1 cfg1 metricsModuleInit).1).2.activeRequests
              (initMetrics env2 cfg2
                (initMetrics env1 cfg1 metricsModuleInit).1).2.httpRequestCounter
              (initMetrics env2 cfg2
                (initMetrics env1 cfg1 metricsModuleInit).1).2.httpRequestDuration
              r startTime (Outcome.finished status endTime))
        ∧ (initMetrics env2 cfg2
              (initMetrics env1 cfg1 metricsModuleInit).1).2.activeRequests
            ≠ (initMetrics env1 cfg1 metricsModuleInit).2.activeRequests) := by
  refine ⟨fun r startTime o => rfl,
    fun env1 env2 cfg1 cfg2 r startTime status endTime => ⟨rfl, fun hEq => ?_⟩⟩
  exact Nat.one_ne_zero (congrArg Instrument.callId hEq)

end Observer
